import Mathlib

/-!
Verification of the WSDissector interop layer
(src/automator/trace_collector/dm_collector/dm_log_packet/ws_dissector.py).

The embedding models the class-level state of WSDissector and its two
class methods, init_proc and decode_msg, as pure Lean functions.  I/O is
made explicit: decode_msg receives the list of lines the child process
would produce on its stdout and returns, besides its Python return value,
a trace of the bytes written to the child stdin and the number of lines
read from its stdout.  init_proc returns the new class state together
with the list of child processes it spawned during the call.
-/

/-- Python str.startswith on explicit character lists: strStarts pat s is
true iff pat is an initial segment of s. -/
def strStarts : List Char → List Char → Bool
  | [], _ => true
  | _ :: _, [] => false
  | a :: as, b :: bs => a == b && strStarts as bs

/-- Model of the Python expression line.startswith(tok): the method
startswith of Python strings. -/
def startswith (line tok : String) : Bool :=
  strStarts tok.data line.data

/-- The response terminator token, from line 107 of the source. -/
def sentinel : String := "===___==="

/-- WSDissector.SUPPORTED_TYPES (source lines 30-52): the dict mapping
each supported message type name to its AWW protocol number, modelled as
an association list in the textual order of the source. -/
def SUPPORTED_TYPES : List (String × Nat) :=
  [ ("RRC_UL_CCCH", 100),
    ("RRC_UL_DCCH", 101),
    ("RRC_DL_CCCH", 102),
    ("RRC_DL_DCCH", 103),
    ("RRC_DL_BCCH_BCH", 104),
    ("RRC_MIB", 150),
    ("RRC_SIB1", 151),
    ("RRC_SIB3", 153),
    ("RRC_SIB5", 155),
    ("RRC_SIB7", 157),
    ("RRC_SIB12", 162),
    ("RRC_SIB19", 169),
    ("LTE-RRC_PCCH", 200),
    ("LTE-RRC_DL_DCCH", 201),
    ("LTE-RRC_UL_DCCH", 202),
    ("LTE-RRC_BCCH_DL_SCH", 203),
    ("LTE-NAS_EPS_PLAIN", 250) ]

/-- Dict lookup on SUPPORTED_TYPES: some code when the name is a key
(Python membership test plus indexing), none otherwise. -/
def lookupType (s : String) : Option Nat :=
  (SUPPORTED_TYPES.find? (fun p => p.1 == s)).map Prod.snd

/-- The four bytes of struct.pack with one big-endian unsigned 32-bit
field, most significant byte first.  struct.pack rejects values outside
the interval from 0 to 2 to the 32; the model takes residues, and every
theorem below quantifies inside that interval. -/
def packBE32 (n : Nat) : List Nat :=
  [n / 16777216 % 256, n / 65536 % 256, n / 256 % 256, n % 256]

/-- struct.pack with format string of two big-endian unsigned 32-bit
fields, network order (source lines 94-98). -/
def structPackII (code len : Nat) : List Nat :=
  packBE32 code ++ packBE32 len

/-- Read a big-endian base-256 number from at most the first four bytes. -/
def readBE32 (bs : List Nat) : Nat :=
  (bs.take 4).foldl (fun a x => 256 * a + x) 0

/-- Read back the two big-endian 32-bit header fields, the inverse
direction of structPackII (struct.unpack with the same format). -/
def unpackII (bs : List Nat) : Nat × Nat :=
  (readBE32 (bs.take 4), readBE32 (bs.drop 4))

/-- The readline loop of decode_msg (source lines 104-109): consume lines
until one satisfies line.startswith of the sentinel token; return the
accumulated earlier lines and the number of lines consumed, or none when
the stream is exhausted before a terminator appears (the Python loop
would block or spin forever in that case). -/
def readUntilSentinel : List String → Option (List String × Nat)
  | [] => none
  | l :: rest =>
    if startswith l sentinel then some ([], 1)
    else
      match readUntilSentinel rest with
      | none => none
      | some (acc, n) => some (l :: acc, n + 1)

/-- Outcome of one decode_msg call: the assert on line 90 fired, the
readline loop never saw a terminator (the call blocks), or the method
returned a Python value (none models the Python None return). -/
inductive DecodeResult where
  | assertFail : DecodeResult
  | blocked : DecodeResult
  | ret : Option String → DecodeResult
deriving DecidableEq, Repr

/-- Trace of the process interaction of one decode_msg call: the bytes
written to the child stdin and the number of lines read from its
stdout. -/
structure ProcTrace where
  written : List Nat
  linesRead : Nat
deriving DecidableEq, Repr

/-- WSDissector.decode_msg (source lines 80-111).  initCalled is the
class attribute assigned by init_proc; stdout_lines is the sequence of
lines the child process produces on its stdout for this request. -/
def decode_msg (initCalled : Bool) (msg_type : String) (b : List Nat)
    (stdout_lines : List String) : DecodeResult × ProcTrace :=
  if initCalled then
    match lookupType msg_type with
    | none => (DecodeResult.ret none, ⟨[], 0⟩)
    | some code =>
      let input_data := structPackII code b.length ++ b
      match readUntilSentinel stdout_lines with
      | none => (DecodeResult.blocked, ⟨input_data, stdout_lines.length⟩)
      | some (acc, n) =>
        (DecodeResult.ret (some (String.join acc)), ⟨input_data, n⟩)
  else
    (DecodeResult.assertFail, ⟨[], 0⟩)

/-- The child environment built on lines 69-70 of the source: a copy of
os.environ with LD_LIBRARY_PATH bound to ws_library_path, a colon, and
the inherited value of LD_LIBRARY_PATH with default empty string. -/
def childEnv (environ : String → Option String) (lib : String) :
    String → Option String :=
  fun k =>
    if k = "LD_LIBRARY_PATH" then
      some (lib ++ ":" ++ (environ "LD_LIBRARY_PATH").getD "")
    else environ k

/-- One subprocess.Popen call: the executable spawned and the environment
it was given. -/
structure SpawnEvent where
  exe : String
  env : String → Option String

/-- The class-level state of WSDissector that init_proc and decode_msg
consult: the flag set on line 77 and the process handle set on line 71. -/
structure WSState where
  init_proc_called : Bool
  proc : Option SpawnEvent

/-- WSDissector.init_proc (source lines 56-77): returns the new class
state together with the Popen calls performed during this call. -/
def init_proc (s : WSState) (environ : String → Option String)
    (executable_path ws_library_path : String) : WSState × List SpawnEvent :=
  if s.init_proc_called then (s, [])
  else
    let ev : SpawnEvent := ⟨executable_path, childEnv environ ws_library_path⟩
    (⟨true, some ev⟩, [ev])

/-- A concrete host environment used by witnesses. -/
def env0 : String → Option String :=
  fun k => if k = "PATH" then some "/usr/bin" else none

lemma readUntilSentinel_clean (ls : List String) (s0 : String) (rest : List String)
    (hs : startswith s0 sentinel = true)
    (h : ∀ l ∈ ls, startswith l sentinel = false) :
    readUntilSentinel (ls ++ s0 :: rest) = some (ls, ls.length + 1) := by
  induction ls with
  | nil => simp [readUntilSentinel, hs]
  | cons a as ih =>
    have ha : startswith a sentinel = false := h a (by simp)
    have hih := ih (fun l hl => h l (by simp [hl]))
    simp [readUntilSentinel, ha, hih]

lemma decode_msg_written (t : String) (code : Nat) (b : List Nat) (ls : List String)
    (hc : lookupType t = some code) :
    (decode_msg true t b ls).2.written = structPackII code b.length ++ b := by
  unfold decode_msg
  simp only [if_pos rfl, hc]
  cases hr : readUntilSentinel ls with
  | none => simp
  | some p =>
    obtain ⟨acc, n⟩ := p
    simp

lemma unpackII_append (code len : Nat) (b : List Nat)
    (h1 : code < 4294967296) (h2 : len < 4294967296) :
    unpackII (structPackII code len ++ b) = (code, len) := by
  simp only [unpackII, structPackII, packBE32, readBE32, List.cons_append,
    List.nil_append, List.take_succ_cons, List.take_zero, List.drop_succ_cons,
    List.drop_zero, List.foldl, Prod.mk.injEq]
  constructor <;> omega

lemma lookup_mem_names (s : String) (code : Nat) (h : lookupType s = some code) :
    s ∈ SUPPORTED_TYPES.map Prod.fst := by
  unfold lookupType at h
  cases hf : SUPPORTED_TYPES.find? (fun p => p.1 == s) with
  | none => rw [hf] at h; simp at h
  | some p =>
    have hmem := List.mem_of_find?_eq_some hf
    have hp : p.1 = s := by simpa using List.find?_some hf
    exact List.mem_map.mpr ⟨p, hmem, hp⟩

/-- C1 (amended): for every supported typeName, decode_msg accumulates
exactly the response lines that do not start with the sentinel token,
stops at the first line that starts with that token, and returns the
accumulated lines concatenated in order with the stopping line excluded;
the stopping line s0 here is any line that starts with the token, such
as the exact token or the actual terminator line bearing a trailing
newline, and for N non-token-initial lines followed by such a stopping
line the result is exactly those N lines concatenated, for any N. -/
theorem c1_sentinel_loop (t : String) (code : Nat) (b : List Nat) (ls : List String)
    (s0 : String) (rest : List String)
    (hc : lookupType t = some code)
    (hs : startswith s0 sentinel = true)
    (h : ∀ l ∈ ls, startswith l sentinel = false) :
    decode_msg true t b (ls ++ s0 :: rest) =
      (DecodeResult.ret (some (String.join ls)),
       ⟨structPackII code b.length ++ b, ls.length + 1⟩) := by
  have hr := readUntilSentinel_clean ls s0 rest hs h
  simp [decode_msg, hc, hr]

/-- C1 counterexample: the line with text ===___===X is not equal to the
exact sentinel token, so by the claim it should be accumulated and
returned; the code stops on it because it only tests startswith, and
returns the empty string instead. -/
theorem c1_counterexample :
    (decode_msg true "RRC_SIB7" [] ["===___===X", "===___==="]).1 =
      DecodeResult.ret (some "") ∧
    DecodeResult.ret (some "") ≠ DecodeResult.ret (some "===___===X") := by
  constructor
  · decide
  · decide

/-- C1 witness: two ordinary lines then the terminator line as readline
actually delivers it, token plus trailing newline, give exactly the two
lines concatenated in order. -/
theorem c1_witness :
    decode_msg true "RRC_SIB7" [1, 128, 0]
        (["line1\n", "line2\n"] ++ "===___===\n" :: []) =
      (DecodeResult.ret (some "line1\nline2\n"),
       ⟨[0, 0, 0, 157, 0, 0, 0, 3, 1, 128, 0], 3⟩) :=
  (c1_sentinel_loop "RRC_SIB7" 157 [1, 128, 0] ["line1\n", "line2\n"] "===___===\n" []
    (by decide) (by decide) (by decide)).trans (by decide)

/-- C2: for a supported type the bytes written to the decoder are an
8-byte header, a big-endian 32-bit protocol code then a big-endian 32-bit
payload length, followed immediately by the raw payload with no padding;
in particular decode_msg of RRC_SIB7 with payload bytes 01 80 00 writes
exactly 00 00 00 9D 00 00 00 03 01 80 00. -/
theorem c2_request_wire_format (t : String) (code : Nat) (b : List Nat) (ls : List String)
    (hc : lookupType t = some code) (hcode : code < 4294967296)
    (hlen : b.length < 4294967296) :
    ((decode_msg true t b ls).2.written.length = 8 + b.length) ∧
    unpackII ((decode_msg true t b ls).2.written) = (code, b.length) ∧
    ((decode_msg true t b ls).2.written.drop 8 = b) ∧
    (∀ x ∈ (decode_msg true t b ls).2.written.take 8, x < 256) ∧
    ((decode_msg true "RRC_SIB7" [1, 128, 0] ls).2.written =
      [0, 0, 0, 157, 0, 0, 0, 3, 1, 128, 0]) := by
  have hw := decode_msg_written t code b ls hc
  have hw7 := decode_msg_written "RRC_SIB7" 157 [1, 128, 0] ls (by decide)
  refine ⟨?_, ?_, ?_, ?_, ?_⟩
  · rw [hw]; simp [structPackII, packBE32]; omega
  · rw [hw]; exact unpackII_append code b.length b hcode hlen
  · rw [hw]; rfl
  · intro x hx
    rw [hw] at hx
    simp [structPackII, packBE32] at hx
    rcases hx with h1 | h1 | h1 | h1 | h1 | h1 | h1 | h1 <;> omega
  · rw [hw7]; rfl

/-- C2 witness: the end-to-end RRC_SIB7 instance evaluated. -/
theorem c2_witness :
    ((decode_msg true "RRC_SIB7" [1, 128, 0] ["===___==="]).2.written.length = 8 + 3) ∧
    unpackII ((decode_msg true "RRC_SIB7" [1, 128, 0] ["===___==="]).2.written) = (157, 3) ∧
    ((decode_msg true "RRC_SIB7" [1, 128, 0] ["===___==="]).2.written =
      [0, 0, 0, 157, 0, 0, 0, 3, 1, 128, 0]) := by
  obtain ⟨h1, h2, h3, h4, h5⟩ :=
    c2_request_wire_format "RRC_SIB7" 157 [1, 128, 0] ["===___==="]
      (by decide) (by decide) (by decide)
  exact ⟨by simpa using h1, by simpa using h2, h5⟩

/-- C3: after initialization, a type name absent from the catalog makes
decode_msg return the Python None value with no bytes written to the
child and no line read from it. -/
theorem c3_unsupported_noop (t : String) (b : List Nat) (ls : List String)
    (h : lookupType t = none) :
    decode_msg true t b ls = (DecodeResult.ret none, ⟨[], 0⟩) := by
  simp [decode_msg, h]

/-- C3 witness: the unknown name from the end-to-end scenario. -/
theorem c3_witness :
    decode_msg true "UNKNOWN_TYPE" [1, 128, 0] ["x"] = (DecodeResult.ret none, ⟨[], 0⟩) :=
  c3_unsupported_noop "UNKNOWN_TYPE" [1, 128, 0] ["x"] (by decide)

/-- C4: init_proc is idempotent: once the flag is set, any further call
with any arguments returns the state unchanged and spawns nothing; and
the sequence of two calls from the fresh state spawns exactly one child
process. -/
theorem c4_init_idempotent (s : WSState) (environ environ2 : String → Option String)
    (exe lib exe2 lib2 : String) (h : s.init_proc_called = true) :
    init_proc s environ2 exe2 lib2 = (s, []) ∧
    ((init_proc ⟨false, none⟩ environ exe lib).2.length = 1) ∧
    (init_proc (init_proc ⟨false, none⟩ environ exe lib).1 environ2 exe2 lib2 =
      ((init_proc ⟨false, none⟩ environ exe lib).1, [])) := by
  refine ⟨?_, rfl, rfl⟩
  simp [init_proc, h]

/-- C4 witness: concrete two-call sequence. -/
theorem c4_witness :
    init_proc ⟨true, none⟩ env0 "exe2" "lib2" = (⟨true, none⟩, []) ∧
    ((init_proc ⟨false, none⟩ env0 "exe1" "lib1").2.length = 1) ∧
    (init_proc (init_proc ⟨false, none⟩ env0 "exe1" "lib1").1 env0 "exe2" "lib2" =
      ((init_proc ⟨false, none⟩ env0 "exe1" "lib1").1, [])) :=
  c4_init_idempotent ⟨true, none⟩ env0 env0 "exe1" "lib1" "exe2" "lib2" rfl

/-- C5: reading back the two big-endian 32-bit fields of an encoded
header recovers the protocol code and payload length exactly, for any
values below 2 to the 32. -/
theorem c5_header_roundtrip (code len : Nat)
    (h1 : code < 4294967296) (h2 : len < 4294967296) :
    unpackII (structPackII code len) = (code, len) := by
  have h := unpackII_append code len [] h1 h2
  simpa using h

/-- C5 witness: the RRC_SIB7 header. -/
theorem c5_witness : unpackII (structPackII 157 3) = (157, 3) :=
  c5_header_roundtrip 157 3 (by decide) (by decide)

/-- C6: the registry maps each of the seventeen documented names to its
documented code, and no other name is in the catalog. -/
theorem c6_catalog :
    (lookupType "RRC_UL_CCCH" = some 100 ∧
     lookupType "RRC_UL_DCCH" = some 101 ∧
     lookupType "RRC_DL_CCCH" = some 102 ∧
     lookupType "RRC_DL_DCCH" = some 103 ∧
     lookupType "RRC_DL_BCCH_BCH" = some 104 ∧
     lookupType "RRC_MIB" = some 150 ∧
     lookupType "RRC_SIB1" = some 151 ∧
     lookupType "RRC_SIB3" = some 153 ∧
     lookupType "RRC_SIB5" = some 155 ∧
     lookupType "RRC_SIB7" = some 157 ∧
     lookupType "RRC_SIB12" = some 162 ∧
     lookupType "RRC_SIB19" = some 169 ∧
     lookupType "LTE-RRC_PCCH" = some 200 ∧
     lookupType "LTE-RRC_DL_DCCH" = some 201 ∧
     lookupType "LTE-RRC_UL_DCCH" = some 202 ∧
     lookupType "LTE-RRC_BCCH_DL_SCH" = some 203 ∧
     lookupType "LTE-NAS_EPS_PLAIN" = some 250) ∧
    ∀ s code, lookupType s = some code →
      s ∈ ["RRC_UL_CCCH", "RRC_UL_DCCH", "RRC_DL_CCCH", "RRC_DL_DCCH",
           "RRC_DL_BCCH_BCH", "RRC_MIB", "RRC_SIB1", "RRC_SIB3", "RRC_SIB5",
           "RRC_SIB7", "RRC_SIB12", "RRC_SIB19", "LTE-RRC_PCCH",
           "LTE-RRC_DL_DCCH", "LTE-RRC_UL_DCCH", "LTE-RRC_BCCH_DL_SCH",
           "LTE-NAS_EPS_PLAIN"] := by
  constructor
  · decide
  · intro s code h
    have hm := lookup_mem_names s code h
    have he : SUPPORTED_TYPES.map Prod.fst =
        ["RRC_UL_CCCH", "RRC_UL_DCCH", "RRC_DL_CCCH", "RRC_DL_DCCH",
         "RRC_DL_BCCH_BCH", "RRC_MIB", "RRC_SIB1", "RRC_SIB3", "RRC_SIB5",
         "RRC_SIB7", "RRC_SIB12", "RRC_SIB19", "LTE-RRC_PCCH",
         "LTE-RRC_DL_DCCH", "LTE-RRC_UL_DCCH", "LTE-RRC_BCCH_DL_SCH",
         "LTE-NAS_EPS_PLAIN"] := rfl
    exact he ▸ hm

/-- C6 witness: a known name resolves and is in the documented name list. -/
theorem c6_witness :
    "RRC_SIB7" ∈ ["RRC_UL_CCCH", "RRC_UL_DCCH", "RRC_DL_CCCH", "RRC_DL_DCCH",
      "RRC_DL_BCCH_BCH", "RRC_MIB", "RRC_SIB1", "RRC_SIB3", "RRC_SIB5",
      "RRC_SIB7", "RRC_SIB12", "RRC_SIB19", "LTE-RRC_PCCH",
      "LTE-RRC_DL_DCCH", "LTE-RRC_UL_DCCH", "LTE-RRC_BCCH_DL_SCH",
      "LTE-NAS_EPS_PLAIN"] :=
  c6_catalog.2 "RRC_SIB7" 157 (by decide)

/-- C7: for every msg_type and payload, calling decode_msg with the
initialization flag unset reaches the assert failure rather than any
return value, and with the flag set the assert branch is unreachable. -/
theorem c7_assert_before_init (t : String) (b : List Nat) (ls : List String) :
    (decode_msg false t b ls).1 = DecodeResult.assertFail ∧
    (decode_msg true t b ls).1 ≠ DecodeResult.assertFail := by
  constructor
  · rfl
  · cases hl : lookupType t with
    | none => simp [decode_msg, hl]
    | some code =>
      cases hr : readUntilSentinel ls with
      | none => simp [decode_msg, hl, hr]
      | some p =>
        obtain ⟨acc, n⟩ := p
        simp [decode_msg, hl, hr]

/-- C7 witness: concrete uninitialized and initialized calls. -/
theorem c7_witness :
    (decode_msg false "RRC_MIB" [] []).1 = DecodeResult.assertFail ∧
    (decode_msg true "RRC_MIB" [] []).1 ≠ DecodeResult.assertFail :=
  c7_assert_before_init "RRC_MIB" [] []

/-- C8: the first init_proc call spawns exactly one process running the
given executable, whose environment binds LD_LIBRARY_PATH to the library
directory, a colon, and the inherited value with empty default, and
agrees with the host environment on every other variable. -/
theorem c8_child_environment (s : WSState) (environ : String → Option String)
    (exe lib : String) (h : s.init_proc_called = false) :
    (init_proc s environ exe lib).2 = [⟨exe, childEnv environ lib⟩] ∧
    childEnv environ lib "LD_LIBRARY_PATH" =
      some (lib ++ ":" ++ (environ "LD_LIBRARY_PATH").getD "") ∧
    ∀ k, k ≠ "LD_LIBRARY_PATH" → childEnv environ lib k = environ k := by
  refine ⟨?_, ?_, ?_⟩
  · simp [init_proc, h]
  · simp [childEnv]
  · intro k hk
    simp [childEnv, hk]

/-- C8 witness: spawning from a host environment with only PATH set. -/
theorem c8_witness :
    (init_proc ⟨false, none⟩ env0 "ws_dissector" "/opt/ws/lib").2.map SpawnEvent.exe =
      ["ws_dissector"] ∧
    childEnv env0 "/opt/ws/lib" "LD_LIBRARY_PATH" = some "/opt/ws/lib:" ∧
    childEnv env0 "/opt/ws/lib" "PATH" = some "/usr/bin" := by
  obtain ⟨h1, h2, h3⟩ :=
    c8_child_environment ⟨false, none⟩ env0 "ws_dissector" "/opt/ws/lib" rfl
  refine ⟨?_, h2.trans (by decide), h3 "PATH" (by decide)⟩
  rw [h1]
  rfl

/-- C9: the assert on the initialization flag comes before the catalog
membership test: with the flag unset decode_msg reaches the assert
failure for every name, supported or not, and never returns a value, in
particular never the not-supported None outcome. -/
theorem c9_assert_precedes_lookup (t : String) (b : List Nat) (ls : List String) :
    (decode_msg false t b ls).1 = DecodeResult.assertFail ∧
    ∀ v : Option String, (decode_msg false t b ls).1 ≠ DecodeResult.ret v := by
  constructor
  · rfl
  · intro v
    change DecodeResult.assertFail ≠ DecodeResult.ret v
    simp

/-- C9 witness: an unsupported name before initialization fails the
assert and does not produce the None outcome. -/
theorem c9_witness :
    (decode_msg false "UNKNOWN_TYPE" [] []).1 = DecodeResult.assertFail ∧
    (decode_msg false "UNKNOWN_TYPE" [] []).1 ≠ DecodeResult.ret none :=
  ⟨(c9_assert_precedes_lookup "UNKNOWN_TYPE" [] []).1,
   (c9_assert_precedes_lookup "UNKNOWN_TYPE" [] []).2 none⟩

/-- C10: a supported request whose response has zero lines before the
terminator returns the empty string, which is distinct from the None
outcome reserved for unsupported names, so callers can tell the two
apart. -/
theorem c10_none_vs_empty (t : String) (code : Nat) (b : List Nat) (ls : List String)
    (h : lookupType t = some code) :
    (decode_msg true t b (sentinel :: ls)).1 = DecodeResult.ret (some "") ∧
    (decode_msg true t b (sentinel :: ls)).1 ≠ DecodeResult.ret none ∧
    ∀ u : String, lookupType u = none →
      (decode_msg true u b ls).1 = DecodeResult.ret none := by
  have hr : readUntilSentinel (sentinel :: ls) = some ([], 1) := by
    simp [readUntilSentinel, show startswith sentinel sentinel = true from by decide]
  have h1 : (decode_msg true t b (sentinel :: ls)).1 = DecodeResult.ret (some "") := by
    simp [decode_msg, h, hr, String.join]
  refine ⟨h1, by rw [h1]; simp, ?_⟩
  intro u hu
  simp [decode_msg, hu]

/-- C10 witness: an empty dissection for a supported type versus the
None outcome for an unknown type. -/
theorem c10_witness :
    (decode_msg true "LTE-RRC_PCCH" [1] (sentinel :: [])).1 = DecodeResult.ret (some "") ∧
    (decode_msg true "NOPE" [1] []).1 = DecodeResult.ret none := by
  obtain ⟨h1, h2, h3⟩ := c10_none_vs_empty "LTE-RRC_PCCH" 200 [1] [] (by decide)
  exact ⟨h1, h3 "NOPE" (by decide)⟩
